import Mathlib

/-!
Verification development for the dual-datastore synchronization engine of
polar-bookshelf: a shallow embedding of
`src/web/js/datastore/DatastoreMutations.ts` and
`src/web/js/datastore/CloudAwareDatastore.ts`.

Promises and latches are modelled denotationally by their eventual outcome,
annotated with an abstract timestamp: a promise either stays pending, or
settles (resolves or rejects) exactly once at some time.  A `Latch`
(`src/web/js/util/Latch.ts`, not among the provided sources) is modelled from
the spec, section 4.1: it settles at most once, later settle attempts are
no-ops, and `get()` replays the settled outcome to every caller, so a latch
is likewise fully described by its eventual outcome.
-/

set_option autoImplicit false

namespace PolarSync

/-- The `DatastoreConsistency` type from `Datastore.ts`: the two observable
completion points of a mutation. -/
inductive Consistency where
  | written
  | committed
deriving DecidableEq

/-- Denotation of a JS promise (or of a latch, see the module comment): it is
forever pending, or it resolves with a value at time `t`, or it rejects with
an error at time `t`. -/
inductive PromiseOutcome (ε α : Type) where
  | pending
  | resolved (t : Nat) (v : α)
  | rejected (t : Nat) (e : ε)
deriving DecidableEq

namespace PromiseOutcome

variable {ε α : Type}

/-- Whether the outcome is a resolution. -/
def isResolved : PromiseOutcome ε α → Bool
  | resolved _ _ => true
  | _ => false

/-- Whether the outcome is a rejection. -/
def isRejected : PromiseOutcome ε α → Bool
  | rejected _ _ => true
  | _ => false

/-- `Promise.all` on two promises: resolves with the pair once both have
resolved (at the later of the two times); rejects as soon as either rejects
(at the earlier rejection when both reject, left-biased on a tie). -/
def all2 : PromiseOutcome ε α → PromiseOutcome ε α → PromiseOutcome ε (α × α)
  | rejected t0 e0, rejected t1 e1 =>
      if t0 ≤ t1 then rejected t0 e0 else rejected t1 e1
  | rejected t0 e0, _ => rejected t0 e0
  | _, rejected t1 e1 => rejected t1 e1
  | resolved t0 v0, resolved t1 v1 => resolved (max t0 t1) (v0, v1)
  | _, _ => pending

end PromiseOutcome

/-- The state of a `DatastoreMutation<T>` (`DatastoreMutation.ts`, not among
the provided sources; its shape is given by the spec, section 3): a pair of
latches, each described by its eventual outcome. -/
structure DatastoreMutation (ε α : Type) where
  written : PromiseOutcome ε α
  committed : PromiseOutcome ε α
deriving DecidableEq

/-- A `new DefaultDatastoreMutation()`: both latches fresh, hence forever
pending unless somebody settles them. -/
def DefaultDatastoreMutation (ε α : Type) : DatastoreMutation ε α :=
  ⟨PromiseOutcome.pending, PromiseOutcome.pending⟩

/-- A settlement event observed by the executor of a `new Promise`: at time
`t` either `resolve` (with `Except.ok`) or `reject` (with `Except.error`) is
called. -/
def SettleEvent (ε : Type) : Type := Nat × Except ε Unit

/-- The outcome a single settle call gives the promise. -/
def settleOutcome {ε : Type} (x : SettleEvent ε) : PromiseOutcome ε Unit :=
  match x.2 with
  | Except.ok _ => PromiseOutcome.resolved x.1 ()
  | Except.error e => PromiseOutcome.rejected x.1 e

/-- A JS promise settles with the first `resolve`/`reject` call it receives:
given the candidate settle events, the earliest one wins (left-biased on a
time tie, matching registration order). -/
def firstSettle {ε : Type} : List (SettleEvent ε) → PromiseOutcome ε Unit
  | [] => PromiseOutcome.pending
  | x :: xs =>
    match firstSettle xs with
    | PromiseOutcome.pending => settleOutcome x
    | PromiseOutcome.resolved t v =>
        if x.1 ≤ t then settleOutcome x else PromiseOutcome.resolved t v
    | PromiseOutcome.rejected t e =>
        if x.1 ≤ t then settleOutcome x else PromiseOutcome.rejected t e

/-- The settle events a promise contributes through a `.catch(reject)`
registration: only its rejection is piped. -/
def rejectionEvents {ε α : Type} : PromiseOutcome ε α → List (SettleEvent ε)
  | PromiseOutcome.rejected t e => [(t, Except.error e)]
  | _ => []

/-- The settle events a promise contributes through a
`.then(resolve).catch(reject)` registration: both legs are piped. -/
def settlementEvents {ε α : Type} : PromiseOutcome ε α → List (SettleEvent ε)
  | PromiseOutcome.resolved t _ => [(t, Except.ok ())]
  | PromiseOutcome.rejected t e => [(t, Except.error e)]
  | PromiseOutcome.pending => []

namespace DatastoreMutations

variable {ε α : Type}

/-- `DatastoreMutations.batchPromises` (DatastoreMutations.ts, lines
145-155): `Promise.all` on the two promises, then the target latch resolves
with `result[0]` or rejects with the first error. -/
def batchPromises (promise0 promise1 : PromiseOutcome ε α) : PromiseOutcome ε α :=
  match PromiseOutcome.all2 promise0 promise1 with
  | PromiseOutcome.resolved t v => PromiseOutcome.resolved t v.1
  | PromiseOutcome.rejected t e => PromiseOutcome.rejected t e
  | PromiseOutcome.pending => PromiseOutcome.pending

/-- `DatastoreMutations.batched` (lines 17-25): merge the `written` latches
always, the `committed` latches only under the committed policy (otherwise
the target's `committed` latch is never touched). -/
def batched (consistency : Consistency) (dm0 dm1 : DatastoreMutation ε α) :
    DatastoreMutation ε α :=
  { written := batchPromises dm0.written dm1.written,
    committed :=
      if consistency = Consistency.committed then
        batchPromises dm0.committed dm1.committed
      else
        PromiseOutcome.pending }

/-- The observable behaviour of one leg handed to `executeBatchedWrite`: the
outcome of the promise the sync function returns, and the outcomes the store
gives the coordinator mutation's latches, assuming the leg is started. -/
structure LegBehavior (ε α : Type) where
  op : PromiseOutcome ε Unit
  coordinator : DatastoreMutation ε α
deriving DecidableEq

/-- Result of `executeBatchedWrite`: whether the local sync function was ever
invoked, the target mutation's merged latches, and the outcome of the promise
returned to the caller. -/
structure ExecResult (ε α : Type) where
  localStarted : Bool
  target : DatastoreMutation ε α
  promise : PromiseOutcome ε Unit
deriving DecidableEq

/-- `DatastoreMutations.executeBatchedWrite` (lines 99-132):
`remoteSync` is started immediately and its rejection is piped to `reject`;
`localSync` is started only in the `.then` of the remote coordinator's
`written` latch, whose rejection is also piped to `reject`; `batched` merges
the two coordinators into the target mutation; finally, only under the
committed policy, the target's `committed` latch is piped to
`resolve`/`reject`.  The returned promise takes the earliest settle call. -/
def executeBatchedWrite (consistency : Consistency)
    (remoteLeg localLeg : LegBehavior ε α) : ExecResult ε α :=
  let localStarted := remoteLeg.coordinator.written.isResolved
  let localCoordinator :=
    if localStarted then localLeg.coordinator else DefaultDatastoreMutation ε α
  let target := batched consistency remoteLeg.coordinator localCoordinator
  let events :=
    rejectionEvents remoteLeg.op
      ++ rejectionEvents remoteLeg.coordinator.written
      ++ (if localStarted then rejectionEvents localLeg.op else [])
      ++ (if consistency = Consistency.committed then
            settlementEvents target.committed
          else [])
  ⟨localStarted, target, firstSettle events⟩

end DatastoreMutations

/-- The `local` / `cloud` discriminator, `CloudDatastoreID` in
CloudAwareDatastore.ts (line 501). -/
inductive CloudDatastoreID where
  | dsLocal
  | dsCloud
deriving DecidableEq

/-- The slice of `DocInfo` the synchronization core consults: the document
fingerprint and its last-modified marker (UUID), per the spec's
`ComparisonIndex entry` data model. -/
structure DocInfo where
  fingerprint : String
  uuid : Nat
deriving DecidableEq

namespace DocMetaComparisonIndex

/-- Modelled from the spec: `DocMetaComparisonIndex`
(`src/web/js/datastore/DocMetaComparisonIndex.ts` is not among the provided
sources).  Section 3: a fingerprint to metadata index holding, per
fingerprint, the last known marker; we represent it as an association list
keyed by fingerprint. -/
abbrev Index : Type := List (String × Nat)

/-- Modelled from the spec: lookup of the recorded marker for a
fingerprint. -/
def lookup (index : Index) (fingerprint : String) : Option Nat :=
  (index.find? (fun entry => entry.1 = fingerprint)).map (fun entry => entry.2)

/-- Modelled from the spec: `remove(fingerprint)` deletes the entry for the
fingerprint (called by `CloudAwareDatastore.delete`, line 165). -/
def remove (index : Index) (fingerprint : String) : Index :=
  index.filter (fun entry => entry.1 ≠ fingerprint)

/-- Modelled from the spec: `updateUsingDocInfo(docInfo)` records the
document's marker under its fingerprint (called by
`CloudAwareDatastore.write`, line 191); section 3: the index is mutated on
every successful write. -/
def updateUsingDocInfo (index : Index) (docInfo : DocInfo) : Index :=
  (docInfo.fingerprint, docInfo.uuid) :: remove index docInfo.fingerprint

end DocMetaComparisonIndex

namespace CloudAwareDatastore

open DatastoreMutations DocMetaComparisonIndex

/-- `CloudAwareDatastore.write` (CloudAwareDatastore.ts, lines 183-205):
registers an index update on the target mutation's `written` latch (a latch
failure there is only logged), then returns the promise of
`executeBatchedWrite` with the cloud write as the remote leg and the local
write as the local leg.  The result pairs the execution outcome with the
comparison index after the registered callback has had its effect. -/
def write {ε : Type} (consistency : Consistency) (index : Index)
    (docInfo : DocInfo) (cloudLeg localLeg : LegBehavior ε Bool) :
    ExecResult ε Bool × Index :=
  let result := executeBatchedWrite consistency cloudLeg localLeg
  (result,
   if result.target.written.isResolved then updateUsingDocInfo index docInfo
   else index)

/-- Result of `CloudAwareDatastore.delete`: the execution outcome of the
batched write, the comparison index afterwards, and the local store's
document set afterwards. -/
structure DeleteResult (ε : Type) where
  exec : ExecResult ε Bool
  index : Index
  localDocs : List String
deriving DecidableEq

/-- `CloudAwareDatastore.delete` (lines 158-181): registers
`docMetaComparisonIndex.remove` on the target mutation's `written` latch
(with failures of that callback only logged, modelled by the `removeOk`
flag), then awaits `executeBatchedWrite` with the cloud delete as the remote
leg and the local delete as the local leg.  The local store's document set
loses the fingerprint only when the local delete leg actually ran and its
`written` latch resolved. -/
def delete {ε : Type} (consistency : Consistency) (index : Index)
    (localDocs : List String) (fingerprint : String)
    (cloudLeg localLeg : LegBehavior ε Bool) (removeOk : Bool) :
    DeleteResult ε :=
  let result := executeBatchedWrite consistency cloudLeg localLeg
  { exec := result,
    index :=
      if result.target.written.isResolved && removeOk then
        remove index fingerprint
      else index,
    localDocs :=
      if result.localStarted && localLeg.coordinator.written.isResolved then
        localDocs.filter (fun doc => doc ≠ fingerprint)
      else localDocs }

end CloudAwareDatastore

/-- A `DocMetaMutation` as the synchronization core consumes it: the
mutation type (`MutationType` in Datastore.ts: created, updated or deleted),
the document fingerprint, and the document's last-modified marker. -/
inductive MutationType where
  | created
  | updated
  | deleted
deriving DecidableEq

/-- One mutation contained in a change-feed event. -/
structure DocMetaMutation where
  fingerprint : String
  mutationType : MutationType
  uuid : Nat
deriving DecidableEq

/-- The batch descriptor of a change-feed event: the batch id (batch 0 is the
initial snapshot replay) and whether this event terminates that batch. -/
structure SnapshotBatch where
  id : Nat
  terminated : Bool
deriving DecidableEq

/-- A `DocMetaSnapshotEvent` (declared in Datastore.ts, not among the
provided sources; fields per the spec's `ChangeEvent` data model and per the
accesses in CloudAwareDatastore.ts): consistency level, optional batch
descriptor, contained mutations, and the originating store. -/
structure DocMetaSnapshotEvent where
  consistency : Consistency
  batch : Option SnapshotBatch
  docMetaMutations : List DocMetaMutation
  origin : CloudDatastoreID
deriving DecidableEq

/-- Modelled from the spec: `DocMetaSnapshotEvents.toSyncDocs`
(Datastore.ts, not among the provided sources) turns an event's mutations
into sync-doc records, here fingerprint/marker pairs. -/
def toSyncDocs (event : DocMetaSnapshotEvent) : List (String × Nat) :=
  event.docMetaMutations.map (fun m => (m.fingerprint, m.uuid))

/-- The direction argument of `PersistenceLayers.transfer`. -/
inductive TransferDirection where
  | cloudToLocal
  | localToCloud
deriving DecidableEq

/-- A side effect of the ongoing-synchronization handler: a targeted
one-document transfer, or a direct delete against the local store. -/
inductive SyncAction where
  | transfer (direction : TransferDirection) (fingerprint : String)
  | localDelete (fingerprint : String)
deriving DecidableEq

namespace CloudAwareDatastore

open DocMetaComparisonIndex

/-- `CloudAwareDatastore.handleSnapshotSynchronization` (lines 407-471),
reduced to the store-facing actions it performs: nothing unless the event's
consistency is `committed`; otherwise, per contained mutation in order, a
`created`/`updated` mutation triggers
`PersistenceLayers.transfer(cloudSyncOrigin, localSyncOrigin, listener,
'cloud-to-local')` scoped to that event's documents, and a `deleted`
mutation triggers `this.local.delete(docMetaFileRef)`. -/
def handleSnapshotSynchronization (event : DocMetaSnapshotEvent) :
    List SyncAction :=
  if event.consistency ≠ Consistency.committed then []
  else
    event.docMetaMutations.map
      (fun m =>
        match m.mutationType with
        | MutationType.created => SyncAction.transfer TransferDirection.cloudToLocal m.fingerprint
        | MutationType.updated => SyncAction.transfer TransferDirection.cloudToLocal m.fingerprint
        | MutationType.deleted => SyncAction.localDelete m.fingerprint)

/-- The `dest` field of the `SynchronizationEvent` dispatched at the end of
`handleSnapshotSynchronization` (lines 466-469): always the local store. -/
def handleSnapshotSynchronizationDest : CloudDatastoreID := CloudDatastoreID.dsLocal

/-- The transfer direction the spec's words prescribe for an event, for
comparison with the source's behaviour: cloud-to-local for cloud events,
local-to-cloud for local events, symmetrically. -/
def specExpectedTransferDirection (origin : CloudDatastoreID) : TransferDirection :=
  match origin with
  | CloudDatastoreID.dsCloud => TransferDirection.cloudToLocal
  | CloudDatastoreID.dsLocal => TransferDirection.localToCloud

/-- Modelled from the spec: the oracle of
`DocMetaSnapshotEventListeners.createDeduplicatedListener`
(`DocMetaSnapshotEventListeners.ts` is not among the provided sources).
Section 4.5: the deduplicator consults the comparison index and suppresses an
event whose fingerprint and marker are not newer than what the index already
records; a mutation is newer when the index has no entry for its fingerprint
or records a strictly smaller marker. -/
def mutationIsNewer (index : Index) (m : DocMetaMutation) : Bool :=
  match lookup index m.fingerprint with
  | none => true
  | some recorded => recorded < m.uuid

/-- Modelled from the spec: an event passes the deduplicator when it carries
at least one mutation newer than the comparison index records. -/
def eventPassesDedup (index : Index) (event : DocMetaSnapshotEvent) : Bool :=
  event.docMetaMutations.any (mutationIsNewer index)

/-- The mutable state of one `snapshot(...)` session, as touched by one
store's feed listener: the `initialSyncCompleted` and `isPrimarySnapshot`
flags of `CloudAwareDatastore.snapshot`, the fields of that store's
`InitialSnapshotLatch` (`hasInitialTerminatedBatch`, the `pending` counter,
its latch and its accumulated `syncDocMap`), the shared comparison index,
and — as observables — the events forwarded to the caller-supplied snapshot
listener and the synchronization actions performed. -/
structure SnapshotSessionState where
  initialSyncCompleted : Bool
  isPrimarySnapshot : Bool
  hasInitialTerminatedBatch : Bool
  pending : Int
  latchResolved : Bool
  syncDocMap : List (String × Nat)
  index : Index
  forwarded : List DocMetaSnapshotEvent
  actions : List SyncAction
deriving DecidableEq

/-- `InitialSnapshotLatch.handleSnapshot` (lines 270-309), one atomic run:
the try block returns early when a terminated batch 0 has already been seen
or the event is not part of batch 0 (the `finally` still decrements the
pending counter); otherwise the counter is incremented, the event's sync docs
are merged into the accumulated map, and a committed event terminating batch
0 sets `hasInitialTerminatedBatch`; the `finally` decrements the counter and
resolves the latch once the terminated batch has been seen and the counter
has drained to zero. -/
def handleSnapshot (st : SnapshotSessionState) (event : DocMetaSnapshotEvent) :
    SnapshotSessionState :=
  let earlyReturn :=
    st.hasInitialTerminatedBatch ||
      match event.batch with
      | none => true
      | some b => b.id ≠ 0
  let st1 :=
    if earlyReturn then st
    else
      { st with
        pending := st.pending + 1,
        syncDocMap := toSyncDocs event ++ st.syncDocMap,
        hasInitialTerminatedBatch :=
          st.hasInitialTerminatedBatch ||
            (event.consistency = Consistency.committed &&
              (event.batch.map SnapshotBatch.terminated).getD false) }
  let st2 := { st1 with pending := st1.pending - 1 }
  if st2.hasInitialTerminatedBatch && st2.pending = 0 then
    { st2 with latchResolved := true }
  else st2

/-- The listener body of the `synchronizingEventDeduplicator` (lines
340-364), given that the event passed the deduplicator: when the initial
synchronization has completed and this is the primary snapshot, perform the
ongoing synchronization; the `finally` then always forwards the event to the
caller-supplied snapshot listener. -/
def synchronizingHandler (st : SnapshotSessionState)
    (event : DocMetaSnapshotEvent) : SnapshotSessionState :=
  let st1 :=
    if st.initialSyncCompleted && st.isPrimarySnapshot then
      { st with actions := st.actions ++ handleSnapshotSynchronization event }
    else st
  { st1 with forwarded := st1.forwarded ++ [event] }

/-- The listener `InitialSnapshotLatch.createSnapshot` registers on one
store's feed (lines 311-324): while `initialSyncCompleted` is false the
event first goes through `handleSnapshot`, and it is then always handed to
the synchronizing (deduplicated) listener, which drops it when the
deduplicator suppresses it. -/
def onFeedEvent (st : SnapshotSessionState) (event : DocMetaSnapshotEvent) :
    SnapshotSessionState :=
  let st1 := if st.initialSyncCompleted then st else handleSnapshot st event
  if eventPassesDedup st1.index event then synchronizingHandler st1 event
  else st1

/-- Which store feeds currently have a live subscription. -/
structure SubscriptionState where
  localFeedActive : Bool
  cloudFeedActive : Bool
deriving DecidableEq

/-- Modelled from the spec: a store's `snapshot(listener, onError)`
subscription primitive returns an unsubscribe token for that store's feed;
invoking the token tears down exactly that feed's subscription. -/
def unsubscribe (token : CloudDatastoreID) (subs : SubscriptionState) :
    SubscriptionState :=
  match token with
  | CloudDatastoreID.dsLocal => { subs with localFeedActive := false }
  | CloudDatastoreID.dsCloud => { subs with cloudFeedActive := false }

/-- The subscription wiring of `CloudAwareDatastore.snapshot` (lines
245-405): it subscribes to the local feed (line 369) and to the cloud feed
(line 374), and the returned `SnapshotResult`'s `unsubscribe` is the cloud
snapshot result's `unsubscribe` (lines 401-403).  The function returns the
subscription state after both subscriptions together with the returned
unsubscribe token. -/
def snapshot (subs : SubscriptionState) : SubscriptionState × CloudDatastoreID :=
  ({ subs with localFeedActive := true, cloudFeedActive := true },
   CloudDatastoreID.dsCloud)

/-- The feed-subscription effect of `CloudAwareDatastore.stop` (lines
100-114): it invokes `primarySnapshot.unsubscribe`, which is the token
`snapshot` returned. -/
def stop (subs : SubscriptionState) : SubscriptionState :=
  unsubscribe (snapshot subs).2 subs

end CloudAwareDatastore

/-! Helper lemmas about promise settlement. -/

/-- A settle call resolves the promise exactly when it was a `resolve`
call. -/
theorem settleOutcome_isResolved {ε : Type} (x : SettleEvent ε) :
    (settleOutcome x).isResolved = x.2.isOk := by
  rcases x with ⟨t, e⟩
  cases e <;> rfl

/-- A settle call never leaves the promise pending. -/
theorem settleOutcome_ne_pending {ε : Type} (x : SettleEvent ε) :
    settleOutcome x ≠ PromiseOutcome.pending := by
  rcases x with ⟨t, e⟩
  cases e <;> simp [settleOutcome]

/-- When no candidate settle event is a `resolve` call, the promise cannot
resolve. -/
theorem firstSettle_isResolved_eq_false {ε : Type} :
    ∀ events : List (SettleEvent ε),
      (∀ x ∈ events, x.2.isOk = false) →
      (firstSettle events).isResolved = false
  | [], _ => rfl
  | x :: xs, h => by
    have hx : x.2.isOk = false := h x (List.mem_cons_self x xs)
    have hxs := firstSettle_isResolved_eq_false xs
      (fun y hy => h y (List.mem_cons_of_mem x hy))
    unfold firstSettle
    cases hfs : firstSettle xs with
    | pending => rw [settleOutcome_isResolved, hx]
    | resolved t v =>
      rw [hfs] at hxs
      simp [PromiseOutcome.isResolved] at hxs
    | rejected t e =>
      by_cases hle : x.1 ≤ t
      · simp only [hle, if_true]
        rw [settleOutcome_isResolved, hx]
      · simp only [hle, if_false]
        rfl

/-- A promise with at least one candidate settle event does not stay
pending. -/
theorem firstSettle_cons_ne_pending {ε : Type} (x : SettleEvent ε)
    (xs : List (SettleEvent ε)) :
    firstSettle (x :: xs) ≠ PromiseOutcome.pending := by
  unfold firstSettle
  cases firstSettle xs with
  | pending => exact settleOutcome_ne_pending x
  | resolved t v =>
    by_cases hle : x.1 ≤ t
    · simp only [hle, if_true]
      exact settleOutcome_ne_pending x
    · simp only [hle, if_false]
      simp
  | rejected t e =>
    by_cases hle : x.1 ≤ t
    · simp only [hle, if_true]
      exact settleOutcome_ne_pending x
    · simp only [hle, if_false]
      simp

/-- When at least one settle event exists and none is a `resolve` call, the
promise rejects. -/
theorem firstSettle_cons_isRejected {ε : Type} (x : SettleEvent ε)
    (xs : List (SettleEvent ε))
    (h : ∀ y ∈ x :: xs, y.2.isOk = false) :
    (firstSettle (x :: xs)).isRejected = true := by
  have hnr := firstSettle_isResolved_eq_false (x :: xs) h
  have hnp := firstSettle_cons_ne_pending x xs
  cases hfs : firstSettle (x :: xs) with
  | pending => exact absurd hfs hnp
  | resolved t v =>
    rw [hfs] at hnr
    simp [PromiseOutcome.isResolved] at hnr
  | rejected t e => rfl

/-- A `.catch(reject)` registration contributes only `reject` calls. -/
theorem rejectionEvents_isOk_false {ε α : Type} (p : PromiseOutcome ε α) :
    ∀ x ∈ rejectionEvents p, x.2.isOk = false := by
  cases p <;> simp [rejectionEvents, Except.isOk, Except.toBool]

/-- A promise that is not rejected contributes nothing through a
`.catch(reject)` registration. -/
theorem rejectionEvents_eq_nil {ε α : Type} {p : PromiseOutcome ε α}
    (h : p.isRejected = false) : rejectionEvents p = [] := by
  cases p <;> simp_all [rejectionEvents, PromiseOutcome.isRejected]

/-- A promise that cannot resolve contributes only `reject` calls through a
`.then(resolve).catch(reject)` registration. -/
theorem settlementEvents_isOk_false {ε α : Type} {p : PromiseOutcome ε α}
    (h : p.isResolved = false) :
    ∀ x ∈ settlementEvents p, x.2.isOk = false := by
  cases p <;>
    simp_all [settlementEvents, PromiseOutcome.isResolved, Except.isOk, Except.toBool]

/-- Merging anything with a forever-pending promise cannot resolve. -/
theorem batchPromises_pending_right_not_resolved {ε α : Type}
    (p : PromiseOutcome ε α) :
    (DatastoreMutations.batchPromises p PromiseOutcome.pending).isResolved = false := by
  cases p <;> rfl

/-- Computation rule for `rejectionEvents` on a rejected promise. -/
theorem rejectionEvents_rejected {ε α : Type} (t : Nat) (e : ε) :
    rejectionEvents (PromiseOutcome.rejected t e : PromiseOutcome ε α)
      = [(t, Except.error e)] := rfl

/-- Computation rule for `settlementEvents` on a resolved promise. -/
theorem settlementEvents_resolved {ε α : Type} (t : Nat) (v : α) :
    settlementEvents (PromiseOutcome.resolved t v : PromiseOutcome ε α)
      = [(t, Except.ok ())] := rfl

/-- Under the written policy, `executeBatchedWrite` never calls `resolve` on
its returned promise: the resolving pipe is installed only under the
committed policy (DatastoreMutations.ts, lines 124-128). -/
theorem executeBatchedWrite_written_not_resolved {ε α : Type}
    (remoteLeg localLeg : DatastoreMutations.LegBehavior ε α) :
    (DatastoreMutations.executeBatchedWrite Consistency.written remoteLeg localLeg).promise.isResolved = false := by
  apply firstSettle_isResolved_eq_false
  intro x hx
  simp only [DatastoreMutations.executeBatchedWrite, List.mem_append] at hx
  rcases hx with ((h | h) | h) | h
  · exact rejectionEvents_isOk_false _ x h
  · exact rejectionEvents_isOk_false _ x h
  · split at h
    · exact rejectionEvents_isOk_false _ x h
    · simp at h
  · split at h
    · simp at *
    · simp at h

/-- Under the written policy, a rejection of the remote sync operation is
piped to `reject` (line 108), and since no `resolve` pipe exists the
returned promise rejects. -/
theorem executeBatchedWrite_rejects_on_remote_op_written_policy {ε α : Type}
    (remoteLeg localLeg : DatastoreMutations.LegBehavior ε α) (t : Nat) (e : ε)
    (hop : remoteLeg.op = PromiseOutcome.rejected t e) :
    (DatastoreMutations.executeBatchedWrite Consistency.written remoteLeg localLeg).promise.isRejected = true := by
  simp only [DatastoreMutations.executeBatchedWrite, hop, rejectionEvents_rejected,
    List.singleton_append, List.cons_append, List.nil_append]
  apply firstSettle_cons_isRejected
  intro y hy
  rcases List.mem_cons.mp hy with h | h
  · subst h; rfl
  · simp only [List.mem_append] at h
    rcases h with (h | h) | h
    · exact rejectionEvents_isOk_false _ y h
    · split at h
      · exact rejectionEvents_isOk_false _ y h
      · simp at h
    · split at h
      next hcon => exact absurd hcon (by decide)
      next => simp at h

/-- Under either policy, when the remote sync operation rejects while the
remote coordinator's `written` latch has not resolved, the local leg never
starts, so nothing can call `resolve` and the returned promise rejects. -/
theorem executeBatchedWrite_rejects_on_early_remote_failure {ε α : Type}
    (c : Consistency)
    (remoteLeg localLeg : DatastoreMutations.LegBehavior ε α) (t : Nat) (e : ε)
    (hop : remoteLeg.op = PromiseOutcome.rejected t e)
    (hw : remoteLeg.coordinator.written.isResolved = false) :
    (DatastoreMutations.executeBatchedWrite c remoteLeg localLeg).promise.isRejected = true := by
  simp only [DatastoreMutations.executeBatchedWrite, hop, rejectionEvents_rejected, hw,
    Bool.false_eq_true, if_false, List.singleton_append, List.cons_append, List.nil_append]
  apply firstSettle_cons_isRejected
  intro y hy
  rcases List.mem_cons.mp hy with h | h
  · subst h; rfl
  · simp only [List.mem_append, List.not_mem_nil, false_or, or_false] at h
    rcases h with h | h
    · exact rejectionEvents_isOk_false _ y h
    · split at h
      next hcon =>
        subst hcon
        simp only [DatastoreMutations.batched, DefaultDatastoreMutation,
          if_pos rfl] at h
        exact settlementEvents_isOk_false (batchPromises_pending_right_not_resolved _) y h
      next => simp at h

/-- Merging a left-rejected promise is a rejection, whatever the right
promise did. -/
theorem batchPromises_rejected_left {ε α : Type} (t : Nat) (e : ε)
    (p : PromiseOutcome ε α) :
    (DatastoreMutations.batchPromises (PromiseOutcome.rejected t e) p).isRejected = true := by
  cases p with
  | pending => rfl
  | resolved t1 v1 => rfl
  | rejected t1 e1 =>
    simp only [DatastoreMutations.batchPromises, PromiseOutcome.all2]
    by_cases hle : t ≤ t1
    · rw [if_pos hle]; rfl
    · rw [if_neg hle]; rfl

/-- Merging a right-rejected promise is a rejection, whatever the left
promise did. -/
theorem batchPromises_rejected_right {ε α : Type} (t : Nat) (e : ε)
    (p : PromiseOutcome ε α) :
    (DatastoreMutations.batchPromises p (PromiseOutcome.rejected t e)).isRejected = true := by
  cases p with
  | pending => rfl
  | resolved t1 v1 => rfl
  | rejected t1 e1 =>
    simp only [DatastoreMutations.batchPromises, PromiseOutcome.all2]
    by_cases hle : t1 ≤ t
    · rw [if_pos hle]; rfl
    · rw [if_neg hle]; rfl

/-- Removing a fingerprint from the comparison index makes its lookup
fail. -/
theorem lookup_remove_self (index : DocMetaComparisonIndex.Index) (fp : String) :
    DocMetaComparisonIndex.lookup (DocMetaComparisonIndex.remove index fp) fp = none := by
  induction index with
  | nil => rfl
  | cons head tail ih =>
    by_cases h : head.1 = fp
    · simpa [DocMetaComparisonIndex.remove, List.filter, h] using ih
    · simp_all [DocMetaComparisonIndex.lookup, DocMetaComparisonIndex.remove,
        List.filter, List.find?, h]

/-- `InitialSnapshotLatch.handleSnapshot` only touches the batch-0
accumulation state: the forwarded-event log, the performed actions, the
comparison index and the session flags are untouched. -/
theorem handleSnapshot_effects (st : CloudAwareDatastore.SnapshotSessionState)
    (event : DocMetaSnapshotEvent) :
    ((CloudAwareDatastore.handleSnapshot st event).forwarded = st.forwarded)
    ∧ ((CloudAwareDatastore.handleSnapshot st event).actions = st.actions)
    ∧ ((CloudAwareDatastore.handleSnapshot st event).index = st.index)
    ∧ ((CloudAwareDatastore.handleSnapshot st event).initialSyncCompleted = st.initialSyncCompleted)
    ∧ ((CloudAwareDatastore.handleSnapshot st event).isPrimarySnapshot = st.isPrimarySnapshot) := by
  simp only [CloudAwareDatastore.handleSnapshot]
  split <;> split <;> simp

/-- Before a terminated batch 0 has been seen, `handleSnapshot` on a batch-0
event accumulates the event's sync docs into the store's SyncDocMap. -/
theorem handleSnapshot_syncDocMap_not_early
    (st : CloudAwareDatastore.SnapshotSessionState) (event : DocMetaSnapshotEvent)
    (b : SnapshotBatch)
    (hterm : st.hasInitialTerminatedBatch = false)
    (hbatch : event.batch = some b) (hid : b.id = 0) :
    (CloudAwareDatastore.handleSnapshot st event).syncDocMap
      = toSyncDocs event ++ st.syncDocMap := by
  simp only [CloudAwareDatastore.handleSnapshot, hterm, hbatch, hid]
  split <;> split <;> simp_all

/-! Claim theorems. -/

/-- Claim C1, counterexample: under the written policy, a rejection of the
cloud write leg makes the promise returned by `write` reject — at this
concrete input the claim's assertion that the returned handle does not
reject and the write does not fail is false. -/
theorem write_cloud_failure_rejects_cex :
    ((CloudAwareDatastore.write Consistency.written [] ⟨"0x001", 1⟩
        (⟨PromiseOutcome.rejected 0 5, ⟨PromiseOutcome.pending, PromiseOutcome.pending⟩⟩ : DatastoreMutations.LegBehavior Nat Bool)
        ⟨PromiseOutcome.pending, ⟨PromiseOutcome.pending, PromiseOutcome.pending⟩⟩).1.promise.isRejected = true) := by
  decide

/-- Claim C1, amended: for every call to `write` under the written
consistency policy, if the cloud store's write leg rejects, the promise
`write` returns rejects, surfacing the failure to the caller (the rejection
is piped into `reject` at DatastoreMutations.ts line 108, in addition to any
logging). -/
theorem write_cloud_failure_rejects {ε : Type}
    (index : DocMetaComparisonIndex.Index) (docInfo : DocInfo)
    (cloudLeg localLeg : DatastoreMutations.LegBehavior ε Bool) (t : Nat) (e : ε)
    (hop : cloudLeg.op = PromiseOutcome.rejected t e) :
    (CloudAwareDatastore.write Consistency.written index docInfo cloudLeg localLeg).1.promise.isRejected = true :=
  executeBatchedWrite_rejects_on_remote_op_written_policy cloudLeg localLeg t e hop

/-- Witness for C1's amended theorem at a concrete input. -/
theorem write_cloud_failure_rejects_witness :
    (CloudAwareDatastore.write Consistency.written [] ⟨"0x002", 2⟩
        (⟨PromiseOutcome.rejected 2 7, ⟨PromiseOutcome.pending, PromiseOutcome.pending⟩⟩ : DatastoreMutations.LegBehavior Nat Bool)
        ⟨PromiseOutcome.pending, ⟨PromiseOutcome.pending, PromiseOutcome.pending⟩⟩).1.promise.isRejected = true :=
  write_cloud_failure_rejects [] ⟨"0x002", 2⟩
    ⟨PromiseOutcome.rejected 2 7, ⟨PromiseOutcome.pending, PromiseOutcome.pending⟩⟩
    ⟨PromiseOutcome.pending, ⟨PromiseOutcome.pending, PromiseOutcome.pending⟩⟩ 2 7 rfl

/-- Claim C2: for every call to `delete`, if the cloud store's delete leg
rejects before its written latch resolves, the local store's delete is never
started (the document set is retained unchanged) and the delete operation's
promise rejects, surfacing the error to the caller. -/
theorem delete_cloud_failure_aborts {ε : Type}
    (c : Consistency) (index : DocMetaComparisonIndex.Index)
    (localDocs : List String) (fingerprint : String)
    (cloudLeg localLeg : DatastoreMutations.LegBehavior ε Bool) (removeOk : Bool)
    (t : Nat) (e : ε)
    (hop : cloudLeg.op = PromiseOutcome.rejected t e)
    (hw : cloudLeg.coordinator.written.isResolved = false) :
    ((CloudAwareDatastore.delete c index localDocs fingerprint cloudLeg localLeg removeOk).exec.localStarted = false)
    ∧ ((CloudAwareDatastore.delete c index localDocs fingerprint cloudLeg localLeg removeOk).localDocs = localDocs)
    ∧ ((CloudAwareDatastore.delete c index localDocs fingerprint cloudLeg localLeg removeOk).exec.promise.isRejected = true) := by
  refine ⟨hw, ?_, ?_⟩
  · simp [CloudAwareDatastore.delete, DatastoreMutations.executeBatchedWrite, hw]
  · exact executeBatchedWrite_rejects_on_early_remote_failure c cloudLeg localLeg t e hop hw

/-- Witness for C2 at a concrete input. -/
theorem delete_cloud_failure_aborts_witness :
    ((CloudAwareDatastore.delete Consistency.written [("0x003", 3)] ["0x003"] "0x003"
        (⟨PromiseOutcome.rejected 1 9, ⟨PromiseOutcome.pending, PromiseOutcome.pending⟩⟩ : DatastoreMutations.LegBehavior Nat Bool)
        ⟨PromiseOutcome.pending, ⟨PromiseOutcome.pending, PromiseOutcome.pending⟩⟩ true).exec.localStarted = false)
    ∧ ((CloudAwareDatastore.delete Consistency.written [("0x003", 3)] ["0x003"] "0x003"
        (⟨PromiseOutcome.rejected 1 9, ⟨PromiseOutcome.pending, PromiseOutcome.pending⟩⟩ : DatastoreMutations.LegBehavior Nat Bool)
        ⟨PromiseOutcome.pending, ⟨PromiseOutcome.pending, PromiseOutcome.pending⟩⟩ true).localDocs = ["0x003"])
    ∧ ((CloudAwareDatastore.delete Consistency.written [("0x003", 3)] ["0x003"] "0x003"
        (⟨PromiseOutcome.rejected 1 9, ⟨PromiseOutcome.pending, PromiseOutcome.pending⟩⟩ : DatastoreMutations.LegBehavior Nat Bool)
        ⟨PromiseOutcome.pending, ⟨PromiseOutcome.pending, PromiseOutcome.pending⟩⟩ true).exec.promise.isRejected = true) :=
  delete_cloud_failure_aborts Consistency.written [("0x003", 3)] ["0x003"] "0x003"
    ⟨PromiseOutcome.rejected 1 9, ⟨PromiseOutcome.pending, PromiseOutcome.pending⟩⟩
    ⟨PromiseOutcome.pending, ⟨PromiseOutcome.pending, PromiseOutcome.pending⟩⟩ true 1 9 rfl rfl

/-- Claim C3, counterexample: under the written policy both legs settle
fully, the target mutation's written latch resolves, yet the promise
returned by `executeBatchedWrite` does not resolve — the claim that reaching
the configured consistency level resolves the promise is false at this
input. -/
theorem executeBatchedWrite_written_policy_no_resolve_cex :
    ((DatastoreMutations.executeBatchedWrite Consistency.written
        (⟨PromiseOutcome.resolved 0 (), ⟨PromiseOutcome.resolved 1 true, PromiseOutcome.resolved 2 true⟩⟩ : DatastoreMutations.LegBehavior Nat Bool)
        ⟨PromiseOutcome.resolved 3 (), ⟨PromiseOutcome.resolved 4 true, PromiseOutcome.resolved 5 true⟩⟩).target.written.isResolved = true)
    ∧ ((DatastoreMutations.executeBatchedWrite Consistency.written
        (⟨PromiseOutcome.resolved 0 (), ⟨PromiseOutcome.resolved 1 true, PromiseOutcome.resolved 2 true⟩⟩ : DatastoreMutations.LegBehavior Nat Bool)
        ⟨PromiseOutcome.resolved 3 (), ⟨PromiseOutcome.resolved 4 true, PromiseOutcome.resolved 5 true⟩⟩).promise.isResolved = false) := by
  decide

/-- Claim C3, amended: the promise returned by `executeBatchedWrite`
resolves only under the committed policy — under the written policy it never
resolves (nothing ever calls `resolve`), while under the committed policy it
resolves as soon as the target's committed latch resolves, provided no leg
rejected first. -/
theorem executeBatchedWrite_promise_resolution {ε α : Type}
    (remoteLeg localLeg : DatastoreMutations.LegBehavior ε α) :
    ((DatastoreMutations.executeBatchedWrite Consistency.written remoteLeg localLeg).promise.isResolved = false)
    ∧ (∀ t v,
        remoteLeg.op.isRejected = false →
        localLeg.op.isRejected = false →
        remoteLeg.coordinator.written.isRejected = false →
        (DatastoreMutations.executeBatchedWrite Consistency.committed remoteLeg localLeg).target.committed
          = PromiseOutcome.resolved t v →
        (DatastoreMutations.executeBatchedWrite Consistency.committed remoteLeg localLeg).promise
          = PromiseOutcome.resolved t ()) := by
  constructor
  · exact executeBatchedWrite_written_not_resolved remoteLeg localLeg
  · intro t v hro hlo hrw hcom
    have hA : rejectionEvents remoteLeg.op = [] := rejectionEvents_eq_nil hro
    have hB : rejectionEvents remoteLeg.coordinator.written = [] := rejectionEvents_eq_nil hrw
    have hC : rejectionEvents localLeg.op = [] := rejectionEvents_eq_nil hlo
    simp only [DatastoreMutations.executeBatchedWrite] at hcom ⊢
    rw [hcom, hA, hB, hC]
    simp [firstSettle, settleOutcome, ite_self, settlementEvents_resolved]

/-- Witness for C3's amended theorem at concrete inputs. -/
theorem executeBatchedWrite_promise_resolution_witness :
    ((DatastoreMutations.executeBatchedWrite Consistency.written
        (⟨PromiseOutcome.resolved 0 (), ⟨PromiseOutcome.resolved 1 true, PromiseOutcome.resolved 2 true⟩⟩ : DatastoreMutations.LegBehavior Nat Bool)
        ⟨PromiseOutcome.resolved 3 (), ⟨PromiseOutcome.resolved 4 true, PromiseOutcome.resolved 5 true⟩⟩).promise.isResolved = false)
    ∧ ((DatastoreMutations.executeBatchedWrite Consistency.committed
        (⟨PromiseOutcome.resolved 0 (), ⟨PromiseOutcome.resolved 1 true, PromiseOutcome.resolved 2 true⟩⟩ : DatastoreMutations.LegBehavior Nat Bool)
        ⟨PromiseOutcome.resolved 3 (), ⟨PromiseOutcome.resolved 4 true, PromiseOutcome.resolved 5 true⟩⟩).promise
        = PromiseOutcome.resolved (max 2 5) ()) := by
  constructor
  · exact (executeBatchedWrite_promise_resolution
      ⟨PromiseOutcome.resolved 0 (), ⟨PromiseOutcome.resolved 1 true, PromiseOutcome.resolved 2 true⟩⟩
      ⟨PromiseOutcome.resolved 3 (), ⟨PromiseOutcome.resolved 4 true, PromiseOutcome.resolved 5 true⟩⟩).1
  · exact (executeBatchedWrite_promise_resolution
      ⟨PromiseOutcome.resolved 0 (), ⟨PromiseOutcome.resolved 1 true, PromiseOutcome.resolved 2 true⟩⟩
      ⟨PromiseOutcome.resolved 3 (), ⟨PromiseOutcome.resolved 4 true, PromiseOutcome.resolved 5 true⟩⟩).2
      (max 2 5) true rfl rfl rfl (by decide)

/-- Claim C4: in every execution of `executeBatchedWrite`, the local sync
operation is started exactly when the remote leg's written latch has
resolved; if that latch never resolves the local operation is never
started. -/
theorem executeBatchedWrite_local_gated_on_remote_written {ε α : Type}
    (c : Consistency) (remoteLeg localLeg : DatastoreMutations.LegBehavior ε α) :
    ((DatastoreMutations.executeBatchedWrite c remoteLeg localLeg).localStarted = true ↔
      ∃ t v, remoteLeg.coordinator.written = PromiseOutcome.resolved t v)
    ∧ (remoteLeg.coordinator.written.isResolved = false →
        (DatastoreMutations.executeBatchedWrite c remoteLeg localLeg).localStarted = false) := by
  constructor
  · show remoteLeg.coordinator.written.isResolved = true ↔ _
    cases remoteLeg.coordinator.written <;> simp [PromiseOutcome.isResolved]
  · intro h
    exact h

/-- Witness for C4 at concrete inputs. -/
theorem executeBatchedWrite_local_gated_on_remote_written_witness :
    ((DatastoreMutations.executeBatchedWrite Consistency.written
        (⟨PromiseOutcome.pending, ⟨PromiseOutcome.pending, PromiseOutcome.pending⟩⟩ : DatastoreMutations.LegBehavior Nat Bool)
        ⟨PromiseOutcome.pending, ⟨PromiseOutcome.pending, PromiseOutcome.pending⟩⟩).localStarted = false)
    ∧ ((DatastoreMutations.executeBatchedWrite Consistency.written
        (⟨PromiseOutcome.pending, ⟨PromiseOutcome.resolved 1 true, PromiseOutcome.pending⟩⟩ : DatastoreMutations.LegBehavior Nat Bool)
        ⟨PromiseOutcome.pending, ⟨PromiseOutcome.pending, PromiseOutcome.pending⟩⟩).localStarted = true) := by
  constructor
  · exact (executeBatchedWrite_local_gated_on_remote_written Consistency.written
      ⟨PromiseOutcome.pending, ⟨PromiseOutcome.pending, PromiseOutcome.pending⟩⟩
      ⟨PromiseOutcome.pending, ⟨PromiseOutcome.pending, PromiseOutcome.pending⟩⟩).2 rfl
  · exact (executeBatchedWrite_local_gated_on_remote_written Consistency.written
      ⟨PromiseOutcome.pending, ⟨PromiseOutcome.resolved 1 true, PromiseOutcome.pending⟩⟩
      ⟨PromiseOutcome.pending, ⟨PromiseOutcome.pending, PromiseOutcome.pending⟩⟩).1.mpr ⟨1, true, rfl⟩

/-- Claim C5: the merged target latch built by `batchPromises` resolves
exactly when both input latches have resolved, at the later of the two
resolution times and never earlier, and it rejects whenever either input
rejects. -/
theorem batchPromises_merge_semantics {ε α : Type}
    (promise0 promise1 : PromiseOutcome ε α) :
    (∀ t0 v0 t1 v1, promise0 = PromiseOutcome.resolved t0 v0 →
        promise1 = PromiseOutcome.resolved t1 v1 →
        DatastoreMutations.batchPromises promise0 promise1
          = PromiseOutcome.resolved (max t0 t1) v0)
    ∧ (∀ t v,
        DatastoreMutations.batchPromises promise0 promise1 = PromiseOutcome.resolved t v →
        ∃ t0 v0 t1 v1, promise0 = PromiseOutcome.resolved t0 v0 ∧
          promise1 = PromiseOutcome.resolved t1 v1 ∧ t = max t0 t1)
    ∧ (((∃ t e, promise0 = PromiseOutcome.rejected t e) ∨
          (∃ t e, promise1 = PromiseOutcome.rejected t e)) →
        (DatastoreMutations.batchPromises promise0 promise1).isRejected = true) := by
  refine ⟨?_, ?_, ?_⟩
  · rintro t0 v0 t1 v1 rfl rfl
    rfl
  · intro t v h
    cases promise0 with
    | resolved t0 v0 =>
      cases promise1 with
      | resolved t1 v1 =>
        simp only [DatastoreMutations.batchPromises, PromiseOutcome.all2,
          PromiseOutcome.resolved.injEq] at h
        exact ⟨t0, v0, t1, v1, rfl, rfl, h.1.symm⟩
      | pending => simp [DatastoreMutations.batchPromises, PromiseOutcome.all2] at h
      | rejected t1 e1 => simp [DatastoreMutations.batchPromises, PromiseOutcome.all2] at h
    | pending =>
      cases promise1 <;> simp [DatastoreMutations.batchPromises, PromiseOutcome.all2] at h
    | rejected t0 e0 =>
      have hrej := batchPromises_rejected_left t0 e0 promise1
      rw [h] at hrej
      simp [PromiseOutcome.isRejected] at hrej
  · rintro (⟨t, e, rfl⟩ | ⟨t, e, rfl⟩)
    · exact batchPromises_rejected_left t e promise1
    · exact batchPromises_rejected_right t e promise0

/-- Witness for C5 at concrete inputs. -/
theorem batchPromises_merge_semantics_witness :
    (DatastoreMutations.batchPromises (PromiseOutcome.resolved 1 true)
        (PromiseOutcome.resolved 3 false : PromiseOutcome Nat Bool)
      = PromiseOutcome.resolved (max 1 3) true)
    ∧ ((DatastoreMutations.batchPromises (PromiseOutcome.resolved 1 true)
        (PromiseOutcome.rejected 2 7 : PromiseOutcome Nat Bool)).isRejected = true) := by
  constructor
  · exact (batchPromises_merge_semantics (PromiseOutcome.resolved 1 true)
      (PromiseOutcome.resolved 3 false)).1 1 true 3 false rfl rfl
  · exact (batchPromises_merge_semantics (PromiseOutcome.resolved 1 true)
      (PromiseOutcome.rejected 2 7)).2.2 (Or.inr ⟨2, 7, rfl⟩)

/-- Claim C6, counterexample: a batch-0 event arriving while the initial
synchronization is still incomplete is accumulated into the store's
SyncDocMap but, contrary to the claim, it is also forwarded to the
caller-supplied snapshot listener (the deduplicated handler's final step
always forwards). -/
theorem onFeedEvent_awaiting_forwards_cex :
    ((CloudAwareDatastore.onFeedEvent
        ⟨false, true, false, 0, false, [], [], [], []⟩
        ⟨Consistency.committed, some ⟨0, false⟩,
          [⟨"0x005", MutationType.created, 1⟩], CloudDatastoreID.dsLocal⟩).syncDocMap
      = [("0x005", 1)])
    ∧ ((CloudAwareDatastore.onFeedEvent
        ⟨false, true, false, 0, false, [], [], [], []⟩
        ⟨Consistency.committed, some ⟨0, false⟩,
          [⟨"0x005", MutationType.created, 1⟩], CloudDatastoreID.dsLocal⟩).forwarded
      = [⟨Consistency.committed, some ⟨0, false⟩,
          [⟨"0x005", MutationType.created, 1⟩], CloudDatastoreID.dsLocal⟩]) := by
  decide

/-- Claim C6, amended: a batch-0 event that arrives while the store's
initial reconciliation is still incomplete is accumulated into that store's
SyncDocMap and, when it passes the deduplicator, is also forwarded to the
caller-supplied snapshot listener; only the ongoing-synchronization handling
is skipped while awaiting (no synchronization actions are performed). -/
theorem onFeedEvent_awaiting_accumulates_and_forwards
    (st : CloudAwareDatastore.SnapshotSessionState) (event : DocMetaSnapshotEvent)
    (b : SnapshotBatch)
    (hawait : st.initialSyncCompleted = false)
    (hterm : st.hasInitialTerminatedBatch = false)
    (hbatch : event.batch = some b) (hid : b.id = 0)
    (hpass : CloudAwareDatastore.eventPassesDedup st.index event = true) :
    ((CloudAwareDatastore.onFeedEvent st event).syncDocMap
      = toSyncDocs event ++ st.syncDocMap)
    ∧ ((CloudAwareDatastore.onFeedEvent st event).forwarded = st.forwarded ++ [event])
    ∧ ((CloudAwareDatastore.onFeedEvent st event).actions = st.actions) := by
  obtain ⟨hf, ha, hix, hisc, hip⟩ := handleSnapshot_effects st event
  have hmap := handleSnapshot_syncDocMap_not_early st event b hterm hbatch hid
  simp only [CloudAwareDatastore.onFeedEvent, hawait, Bool.false_eq_true, if_false]
  rw [hix, hpass]
  simp only [if_true, CloudAwareDatastore.synchronizingHandler, hisc, hawait,
    Bool.false_and, Bool.false_eq_true, if_false]
  exact ⟨hmap, by rw [hf], ha⟩

/-- Witness for C6's amended theorem at a concrete input. -/
theorem onFeedEvent_awaiting_accumulates_and_forwards_witness :
    ((CloudAwareDatastore.onFeedEvent
        ⟨false, true, false, 0, false, [], [], [], []⟩
        ⟨Consistency.written, some ⟨0, false⟩,
          [⟨"0x006", MutationType.updated, 2⟩], CloudDatastoreID.dsCloud⟩).syncDocMap
      = toSyncDocs ⟨Consistency.written, some ⟨0, false⟩,
          [⟨"0x006", MutationType.updated, 2⟩], CloudDatastoreID.dsCloud⟩ ++ [])
    ∧ ((CloudAwareDatastore.onFeedEvent
        ⟨false, true, false, 0, false, [], [], [], []⟩
        ⟨Consistency.written, some ⟨0, false⟩,
          [⟨"0x006", MutationType.updated, 2⟩], CloudDatastoreID.dsCloud⟩).forwarded
      = [] ++ [⟨Consistency.written, some ⟨0, false⟩,
          [⟨"0x006", MutationType.updated, 2⟩], CloudDatastoreID.dsCloud⟩])
    ∧ ((CloudAwareDatastore.onFeedEvent
        ⟨false, true, false, 0, false, [], [], [], []⟩
        ⟨Consistency.written, some ⟨0, false⟩,
          [⟨"0x006", MutationType.updated, 2⟩], CloudDatastoreID.dsCloud⟩).actions = []) :=
  onFeedEvent_awaiting_accumulates_and_forwards
    ⟨false, true, false, 0, false, [], [], [], []⟩
    ⟨Consistency.written, some ⟨0, false⟩,
      [⟨"0x006", MutationType.updated, 2⟩], CloudDatastoreID.dsCloud⟩
    ⟨0, false⟩ rfl rfl rfl rfl (by decide)

/-- Claim C7, counterexample: a committed event originating from the local
store with one created mutation triggers a transfer in the cloud-to-local
direction, while the claim's symmetric reading expects local-to-cloud for a
local-origin event. -/
theorem handleSnapshotSynchronization_direction_cex :
    (CloudAwareDatastore.handleSnapshotSynchronization
        ⟨Consistency.committed, none, [⟨"0x007", MutationType.created, 1⟩],
          CloudDatastoreID.dsLocal⟩
      = [SyncAction.transfer TransferDirection.cloudToLocal "0x007"])
    ∧ (CloudAwareDatastore.specExpectedTransferDirection CloudDatastoreID.dsLocal
        = TransferDirection.localToCloud) := by
  decide

/-- Claim C7, amended: for every post-reconciliation committed change event,
each contained created or updated mutation triggers a targeted one-document
transfer, and every such transfer runs in the cloud-to-local direction
regardless of the event's originating store (the source hardcodes
cloud-to-local; there is no symmetric local-to-cloud leg). -/
theorem handleSnapshotSynchronization_always_cloud_to_local
    (event : DocMetaSnapshotEvent) (m : DocMetaMutation)
    (hc : event.consistency = Consistency.committed)
    (hm : m ∈ event.docMetaMutations)
    (ht : m.mutationType = MutationType.created ∨ m.mutationType = MutationType.updated) :
    (SyncAction.transfer TransferDirection.cloudToLocal m.fingerprint
      ∈ CloudAwareDatastore.handleSnapshotSynchronization event)
    ∧ (∀ d fp, SyncAction.transfer d fp ∈ CloudAwareDatastore.handleSnapshotSynchronization event →
        d = TransferDirection.cloudToLocal) := by
  constructor
  · simp only [CloudAwareDatastore.handleSnapshotSynchronization, hc, ne_eq,
      not_true_eq_false, if_false]
    refine List.mem_map.mpr ⟨m, hm, ?_⟩
    rcases ht with h | h <;> rw [h]
  · intro d fp hmem
    simp only [CloudAwareDatastore.handleSnapshotSynchronization] at hmem
    split at hmem
    · simp at hmem
    · rcases List.mem_map.mp hmem with ⟨m2, _, heq⟩
      cases hmt : m2.mutationType <;> rw [hmt] at heq <;> simp_all

/-- Witness for C7's amended theorem at a concrete input. -/
theorem handleSnapshotSynchronization_always_cloud_to_local_witness :
    (SyncAction.transfer TransferDirection.cloudToLocal "0x008"
      ∈ CloudAwareDatastore.handleSnapshotSynchronization
        ⟨Consistency.committed, none, [⟨"0x008", MutationType.updated, 3⟩],
          CloudDatastoreID.dsCloud⟩) :=
  (handleSnapshotSynchronization_always_cloud_to_local
    ⟨Consistency.committed, none, [⟨"0x008", MutationType.updated, 3⟩],
      CloudDatastoreID.dsCloud⟩
    ⟨"0x008", MutationType.updated, 3⟩ rfl (List.mem_singleton.mpr rfl)
    (Or.inr rfl)).1

/-- Claim C8: when both legs' latches resolve, the merged target written
latch resolves with the remote leg's value (the local leg's value is
discarded), and under the committed policy the committed latch does the
same. -/
theorem executeBatchedWrite_target_resolves_with_remote_value {ε α : Type}
    (c : Consistency) (remoteLeg localLeg : DatastoreMutations.LegBehavior ε α)
    (t0 : Nat) (v0 : α) (t1 : Nat) (v1 : α)
    (h0 : remoteLeg.coordinator.written = PromiseOutcome.resolved t0 v0)
    (h1 : localLeg.coordinator.written = PromiseOutcome.resolved t1 v1) :
    (DatastoreMutations.executeBatchedWrite c remoteLeg localLeg).target.written
      = PromiseOutcome.resolved (max t0 t1) v0
    ∧ (∀ t2 v2 t3 v3, c = Consistency.committed →
        remoteLeg.coordinator.committed = PromiseOutcome.resolved t2 v2 →
        localLeg.coordinator.committed = PromiseOutcome.resolved t3 v3 →
        (DatastoreMutations.executeBatchedWrite c remoteLeg localLeg).target.committed
          = PromiseOutcome.resolved (max t2 t3) v2) := by
  have hres : remoteLeg.coordinator.written.isResolved = true := by
    rw [h0]; rfl
  constructor
  · simp [DatastoreMutations.executeBatchedWrite, DatastoreMutations.batched, hres,
      h0, h1, DatastoreMutations.batchPromises, PromiseOutcome.all2,
      PromiseOutcome.isResolved]
  · rintro t2 v2 t3 v3 rfl h2 h3
    simp [DatastoreMutations.executeBatchedWrite, DatastoreMutations.batched, hres,
      h0, h1, h2, h3, DatastoreMutations.batchPromises, PromiseOutcome.all2,
      PromiseOutcome.isResolved]

/-- Witness for C8 at concrete inputs: the remote leg carries `true`, the
local leg carries `false`, and the merged latches resolve with the remote
value. -/
theorem executeBatchedWrite_target_resolves_with_remote_value_witness :
    ((DatastoreMutations.executeBatchedWrite Consistency.committed
        (⟨PromiseOutcome.resolved 0 (), ⟨PromiseOutcome.resolved 1 true, PromiseOutcome.resolved 2 true⟩⟩ : DatastoreMutations.LegBehavior Nat Bool)
        ⟨PromiseOutcome.resolved 3 (), ⟨PromiseOutcome.resolved 4 false, PromiseOutcome.resolved 5 false⟩⟩).target.written
      = PromiseOutcome.resolved (max 1 4) true)
    ∧ ((DatastoreMutations.executeBatchedWrite Consistency.committed
        (⟨PromiseOutcome.resolved 0 (), ⟨PromiseOutcome.resolved 1 true, PromiseOutcome.resolved 2 true⟩⟩ : DatastoreMutations.LegBehavior Nat Bool)
        ⟨PromiseOutcome.resolved 3 (), ⟨PromiseOutcome.resolved 4 false, PromiseOutcome.resolved 5 false⟩⟩).target.committed
      = PromiseOutcome.resolved (max 2 5) true) := by
  constructor
  · exact (executeBatchedWrite_target_resolves_with_remote_value Consistency.committed
      ⟨PromiseOutcome.resolved 0 (), ⟨PromiseOutcome.resolved 1 true, PromiseOutcome.resolved 2 true⟩⟩
      ⟨PromiseOutcome.resolved 3 (), ⟨PromiseOutcome.resolved 4 false, PromiseOutcome.resolved 5 false⟩⟩
      1 true 4 false rfl rfl).1
  · exact (executeBatchedWrite_target_resolves_with_remote_value Consistency.committed
      ⟨PromiseOutcome.resolved 0 (), ⟨PromiseOutcome.resolved 1 true, PromiseOutcome.resolved 2 true⟩⟩
      ⟨PromiseOutcome.resolved 3 (), ⟨PromiseOutcome.resolved 4 false, PromiseOutcome.resolved 5 false⟩⟩
      1 true 4 false rfl rfl).2 2 true 5 false rfl rfl rfl

/-- Claim C9: `snapshot` returns the cloud store subscription's unsubscribe
token; invoking it leaves the local store's feed subscription active, and
`stop`, which invokes that token, never unsubscribes the local feed. -/
theorem snapshot_unsubscribe_is_cloud_only
    (subs : CloudAwareDatastore.SubscriptionState) :
    ((CloudAwareDatastore.snapshot subs).2 = CloudDatastoreID.dsCloud)
    ∧ ((CloudAwareDatastore.unsubscribe (CloudAwareDatastore.snapshot subs).2
          (CloudAwareDatastore.snapshot subs).1).localFeedActive = true)
    ∧ ((CloudAwareDatastore.unsubscribe (CloudAwareDatastore.snapshot subs).2
          (CloudAwareDatastore.snapshot subs).1).cloudFeedActive = false)
    ∧ ((CloudAwareDatastore.stop subs).localFeedActive = subs.localFeedActive) :=
  ⟨rfl, rfl, rfl, rfl⟩

/-- Claim C10: once the delete's target written latch resolves, the
comparison index no longer contains an entry for the fingerprint (the entry
is removed), and a failure of the index-removal callback does not change the
outcome of the delete operation itself. -/
theorem delete_removes_comparison_index_entry {ε : Type}
    (c : Consistency) (index : DocMetaComparisonIndex.Index)
    (localDocs : List String) (fingerprint : String)
    (cloudLeg localLeg : DatastoreMutations.LegBehavior ε Bool)
    (hres : (CloudAwareDatastore.delete c index localDocs fingerprint cloudLeg localLeg true).exec.target.written.isResolved = true) :
    (DocMetaComparisonIndex.lookup
        (CloudAwareDatastore.delete c index localDocs fingerprint cloudLeg localLeg true).index
        fingerprint = none)
    ∧ ((CloudAwareDatastore.delete c index localDocs fingerprint cloudLeg localLeg true).exec
        = (CloudAwareDatastore.delete c index localDocs fingerprint cloudLeg localLeg false).exec) := by
  constructor
  · have hres2 : (DatastoreMutations.executeBatchedWrite c cloudLeg localLeg).target.written.isResolved = true := hres
    simp [CloudAwareDatastore.delete, hres2, lookup_remove_self]
  · rfl

/-- Witness for C10 at a concrete input. -/
theorem delete_removes_comparison_index_entry_witness :
    (DocMetaComparisonIndex.lookup
        (CloudAwareDatastore.delete Consistency.written [("0x004", 4)] ["0x004"] "0x004"
          (⟨PromiseOutcome.resolved 0 (), ⟨PromiseOutcome.resolved 1 true, PromiseOutcome.pending⟩⟩ : DatastoreMutations.LegBehavior Nat Bool)
          ⟨PromiseOutcome.resolved 2 (), ⟨PromiseOutcome.resolved 3 true, PromiseOutcome.pending⟩⟩ true).index
        "0x004" = none)
    ∧ ((CloudAwareDatastore.delete Consistency.written [("0x004", 4)] ["0x004"] "0x004"
          (⟨PromiseOutcome.resolved 0 (), ⟨PromiseOutcome.resolved 1 true, PromiseOutcome.pending⟩⟩ : DatastoreMutations.LegBehavior Nat Bool)
          ⟨PromiseOutcome.resolved 2 (), ⟨PromiseOutcome.resolved 3 true, PromiseOutcome.pending⟩⟩ true).exec
        = (CloudAwareDatastore.delete Consistency.written [("0x004", 4)] ["0x004"] "0x004"
          (⟨PromiseOutcome.resolved 0 (), ⟨PromiseOutcome.resolved 1 true, PromiseOutcome.pending⟩⟩ : DatastoreMutations.LegBehavior Nat Bool)
          ⟨PromiseOutcome.resolved 2 (), ⟨PromiseOutcome.resolved 3 true, PromiseOutcome.pending⟩⟩ false).exec) :=
  delete_removes_comparison_index_entry Consistency.written [("0x004", 4)] ["0x004"] "0x004"
    ⟨PromiseOutcome.resolved 0 (), ⟨PromiseOutcome.resolved 1 true, PromiseOutcome.pending⟩⟩
    ⟨PromiseOutcome.resolved 2 (), ⟨PromiseOutcome.resolved 3 true, PromiseOutcome.pending⟩⟩
    (by decide)

end PolarSync
